import Mathlib

/-!
Shallow embedding of the `gologger` Go package (gologger.go, gologger_syslog.go):
a leveled logging facility that fans each record out to multiple destinations.

Modelling conventions:
- An `io.Writer` destination is a `Sink`; the caller-supplied primary writer is
  `Sink.primary id closable` (`closable` records whether it also satisfies
  `io.Closer`), `Sink.stdoutS`/`Sink.stderrS` are the process streams, and
  `Sink.syslogW prio src` is the writer produced by `syslog.New(prio, src)`.
- Side effects are an explicit list of `Event`s: a write of a text line to a
  sink, or process termination with an exit code.
- The timestamp / call-site header that Go's `log.Logger` inserts between the
  prefix and the message (per `log.Ldate | log.Lmicroseconds | log.Lshortfile`)
  is environment-dependent, so `output` takes it as an abstract `meta` string.
- `fmt.Sprint`/`fmt.Sprintf` argument formatting is abstracted: each logging
  entry point receives the already-formatted text, while the `ln` variants
  append the newline that `fmt.Sprintln` adds.
- The environment behind `syslog.New` is a function `env` giving, for each
  priority and source name, the error it fails with (`none` = success); the
  result of closing an `io.Closer` during `Close` is likewise a function
  `res : Sink → Option String`.
- Go pointer identity of `*Logger` is modelled by a `uid` drawn from a
  fresh-id counter in `World`; `World` also carries the package-level
  `defaultLogger` variable.
-/

namespace Gologger

/-- Severity of logs (`sInfo | sWarn | sError | sFatal` in gologger.go). -/
inductive Severity where
  | sInfo
  | sWarn
  | sError
  | sFatal
deriving DecidableEq, Repr

/-- `Level` describes the verbosity level for Verbose logging (`type Level int`). -/
abbrev Level := Int

/-- A destination writer (`io.Writer`). -/
inductive Sink where
  | primary (id : Nat) (closable : Bool)
  | stdoutS
  | stderrS
  | syslogW (prio : Nat) (src : String)
deriving DecidableEq, Repr

/-- Whether the writer also satisfies `io.Closer` (the `w.(io.Closer)` type
assertion in `Init`): `os.Stdout`, `os.Stderr` and `*syslog.Writer` are
closers; the primary writer is a closer iff the caller's value is. -/
def Sink.isCloser : Sink → Bool
  | .primary _ c => c
  | .stdoutS => true
  | .stderrS => true
  | .syslogW _ _ => true

/-- Whether the writer is a system-log writer. -/
def Sink.isSyslog : Sink → Bool
  | .syslogW _ _ => true
  | _ => false

/-- An observable side effect of the logger. -/
inductive Event where
  | write (dst : Sink) (text : String)
  | exitProc (code : Nat)
deriving DecidableEq, Repr

/-- Severity label constants of gologger.go. -/
def labelInfo : String := "[INFO]: "

/-- Warning label. -/
def labelWarn : String := "[WARN]: "

/-- Error label. -/
def labelErr : String := "[ERROR]: "

/-- Fatal label. -/
def labelFatal : String := "[FATAL]: "

/-- The fixed pre-Init marker text (constant `initText` in gologger.go). -/
def initText : String := "[ERROR]: Logging before logger initiated!\n"

/-- The label for a severity. -/
def severityLabel : Severity → String
  | .sInfo => labelInfo
  | .sWarn => labelWarn
  | .sError => labelErr
  | .sFatal => labelFatal

/-- The numeric value of `log.Ldate | log.Lmicroseconds | log.Lshortfile`. -/
def defaultFlags : Nat := 1 ||| 4 ||| 16

/-- One per-severity formatted-output channel (`*log.Logger`): a prefix
string, the fan-out writer list (`io.MultiWriter`), and the format flags. -/
structure Chan where
  pfx : String
  writers : List Sink
  flags : Nat
deriving DecidableEq, Repr

/-- A logging object (struct `Logger` of gologger.go), with `uid` standing in
for Go pointer identity. -/
structure Logger where
  uid : Nat
  infoLog : Chan
  warnLog : Chan
  errorLog : Chan
  fatalLog : Chan
  closers : List Sink
  initialized : Bool
  level : Level
deriving DecidableEq, Repr

/-- A verbosity gate handle (struct `Verbose`). -/
structure Verbose where
  enabled : Bool
  logger : Logger
deriving DecidableEq, Repr

/-- Package-level mutable state: the `defaultLogger` variable, plus the
fresh-id counter used to model pointer identity. -/
structure World where
  defaultLogger : Logger
  nextId : Nat
deriving Repr

/-- `log.Logger.Output`: prefix, then header (`meta`), then the message,
appending a newline when the message does not already end with one. -/
def formatRecord (pfx meta msg : String) : String :=
  pfx ++ meta ++ msg ++ (if msg.endsWith "\n" then "" else "\n")

/-- Writing one record through a channel: the same formatted line goes to
every writer of the fan-out list (`io.MultiWriter` semantics). -/
def Chan.emit (c : Chan) (meta msg : String) : List Event :=
  c.writers.map (fun w => Event.write w (formatRecord c.pfx meta msg))

/-- The channel serving a given severity (the `switch` in `Logger.output`). -/
def Logger.chanFor (l : Logger) : Severity → Chan
  | .sInfo => l.infoLog
  | .sWarn => l.warnLog
  | .sError => l.errorLog
  | .sFatal => l.fatalLog

/-- `Logger.output`: route a pre-formatted text to the severity's channel.
`depth` only influences the call-site part of the header, which is already
abstracted into `meta`. -/
def Logger.output (l : Logger) (s : Severity) (_depth : Nat) (meta msg : String) :
    List Event :=
  (l.chanFor s).emit meta msg

/-- `init_logger`: the pre-Init default logger, all four channels writing only
to stderr with the `initText` marker prepended to the severity label;
`initialized`, `closers` and `level` keep their Go zero values. -/
def init_logger (uid : Nat) : Logger :=
  { uid
    infoLog := ⟨initText ++ labelInfo, [Sink.stderrS], defaultFlags⟩
    warnLog := ⟨initText ++ labelWarn, [Sink.stderrS], defaultFlags⟩
    errorLog := ⟨initText ++ labelErr, [Sink.stderrS], defaultFlags⟩
    fatalLog := ⟨initText ++ labelFatal, [Sink.stderrS], defaultFlags⟩
    closers := []
    initialized := false
    level := 0 }

/-- The state at process start: `init()` has run `init_logger`. -/
def w0 : World := ⟨init_logger 0, 1⟩

/-- `syslog.LOG_USER` facility value. -/
def LOG_USER : Nat := 8

/-- `syslog.LOG_NOTICE`. -/
def LOG_NOTICE : Nat := 5

/-- `syslog.LOG_WARNING`. -/
def LOG_WARNING : Nat := 4

/-- `syslog.LOG_ERR`. -/
def LOG_ERR : Nat := 3

/-- Result shape of `setup` in gologger_syslog.go: three optional writers and
an optional error. -/
structure SetupResult where
  il : Option Sink
  wl : Option Sink
  el : Option Sink
  err : Option String
deriving DecidableEq, Repr

/-- `syslog.New(prio, src)`: fails with the environment-supplied error, or
returns the system-log writer for that priority and source. -/
def syslogNew (env : Nat → String → Option String) (prio : Nat) (src : String) :
    Except String Sink :=
  match env prio src with
  | some e => Except.error e
  | none => Except.ok (Sink.syslogW prio src)

/-- `setup` (gologger_syslog.go): open the notice/warning/error system-log
writers in order, aborting with `(nil, nil, nil, err)` at the first failure. -/
def setup (env : Nat → String → Option String) (src : String) : SetupResult :=
  match syslogNew env (LOG_USER ||| LOG_NOTICE) src with
  | Except.error e => ⟨none, none, none, some e⟩
  | Except.ok il =>
    match syslogNew env (LOG_USER ||| LOG_WARNING) src with
    | Except.error e => ⟨none, none, none, some e⟩
    | Except.ok wl =>
      match syslogNew env (LOG_USER ||| LOG_ERR) src with
      | Except.error e => ⟨none, none, none, some e⟩
      | Except.ok el => ⟨some il, some wl, some el, none⟩

/-- The singleton-or-empty list of an optional writer (the `if il != nil`
appends in `Init`). -/
def optList : Option Sink → List Sink
  | some s => [s]
  | none => []

/-- `Init(name, verbose, systemLog, logFd)`. Returns the new logger, the
updated package state, and the side effects emitted during construction
(the error-channel record reporting a syslog failure, when there is one).
`errMeta` is the abstract header of that one record. -/
def Init (env : Nat → String → Option String) (name : String)
    (verbose systemLog : Bool) (logFd : Sink) (errMeta : String) (w : World) :
    Logger × World × List Event :=
  let sr : SetupResult :=
    if systemLog then setup env name else ⟨none, none, none, none⟩
  let iLogs := ([logFd] ++ optList sr.il) ++ (if verbose then [Sink.stdoutS] else [])
  let wLogs := ([logFd] ++ optList sr.wl) ++ (if verbose then [Sink.stdoutS] else [])
  let eLogs := ([logFd] ++ optList sr.el) ++ [Sink.stderrS]
  let l : Logger :=
    { uid := w.nextId
      infoLog := ⟨labelInfo, iLogs, defaultFlags⟩
      warnLog := ⟨labelWarn, wLogs, defaultFlags⟩
      errorLog := ⟨labelErr, eLogs, defaultFlags⟩
      fatalLog := ⟨labelFatal, eLogs, defaultFlags⟩
      closers := ([logFd] ++ optList sr.il ++ optList sr.wl ++ optList sr.el).filter
        Sink.isCloser
      initialized := true
      level := 0 }
  let evs : List Event :=
    match sr.err with
    | some e => l.output Severity.sError 0 errMeta e
    | none => []
  let newDefault := if w.defaultLogger.initialized then w.defaultLogger else l
  (l, ⟨newDefault, w.nextId + 1⟩, evs)

/-- A concrete rendering of a sink, standing in for `fmt`'s `%v` verb in the
close-failure diagnostic. -/
def Sink.render : Sink → String
  | .primary id _ => "primary(" ++ toString id ++ ")"
  | .stdoutS => "stdout"
  | .stderrS => "stderr"
  | .syslogW p s => "syslog(" ++ toString p ++ "," ++ s ++ ")"

/-- The stderr diagnostic `Close` prints when closing a resource fails. -/
def closeDiag (c : Sink) (e : String) : String :=
  "[ERROR]: Failed to close log " ++ c.render ++ ": " ++ e ++ "\n"

/-- `Logger.Close`: a no-op when `initialized` is false; otherwise closes each
closer in insertion order, printing a stderr diagnostic for each failure and
never reporting an error to the caller. `res c` is the error (if any) that
closing `c` reports during this call. -/
def Logger.Close (l : Logger) (res : Sink → Option String) : List Event :=
  if !l.initialized then []
  else
    l.closers.filterMap (fun c =>
      match res c with
      | some e => some (Event.write Sink.stderrS (closeDiag c e))
      | none => none)

/-- Package-level `Close`: delegates to the default logger. -/
def CloseDefault (w : World) (res : Sink → Option String) : List Event :=
  w.defaultLogger.Close res

/-- `Logger.Info` (`fmt.Sprint` formatting abstracted into `txt`). -/
def Logger.Info (l : Logger) (meta txt : String) : List Event :=
  l.output Severity.sInfo 0 meta txt

/-- `Logger.InfoDepth`. -/
def Logger.InfoDepth (l : Logger) (depth : Nat) (meta txt : String) : List Event :=
  l.output Severity.sInfo depth meta txt

/-- `Logger.Infoln` (`fmt.Sprintln` appends a newline). -/
def Logger.Infoln (l : Logger) (meta txt : String) : List Event :=
  l.output Severity.sInfo 0 meta (txt ++ "\n")

/-- `Logger.Infof` (`fmt.Sprintf` formatting abstracted into `txt`). -/
def Logger.Infof (l : Logger) (meta txt : String) : List Event :=
  l.output Severity.sInfo 0 meta txt

/-- `Logger.Warning`. -/
def Logger.Warning (l : Logger) (meta txt : String) : List Event :=
  l.output Severity.sWarn 0 meta txt

/-- `Logger.Error`. -/
def Logger.Error (l : Logger) (meta txt : String) : List Event :=
  l.output Severity.sError 0 meta txt

/-- `Logger.Fatal`: write the fatal record, close all resources, then
`os.Exit(1)`. -/
def Logger.Fatal (l : Logger) (meta txt : String) (res : Sink → Option String) :
    List Event :=
  l.output Severity.sFatal 0 meta txt ++ l.Close res ++ [Event.exitProc 1]

/-- `Logger.FatalDepth`. -/
def Logger.FatalDepth (l : Logger) (depth : Nat) (meta txt : String)
    (res : Sink → Option String) : List Event :=
  l.output Severity.sFatal depth meta txt ++ l.Close res ++ [Event.exitProc 1]

/-- `Logger.Fatalln`. -/
def Logger.Fatalln (l : Logger) (meta txt : String) (res : Sink → Option String) :
    List Event :=
  l.output Severity.sFatal 0 meta (txt ++ "\n") ++ l.Close res ++ [Event.exitProc 1]

/-- `Logger.Fatalf`. -/
def Logger.Fatalf (l : Logger) (meta txt : String) (res : Sink → Option String) :
    List Event :=
  l.output Severity.sFatal 0 meta txt ++ l.Close res ++ [Event.exitProc 1]

/-- Package-level `Fatal` on the default logger. -/
def Fatal (w : World) (meta txt : String) (res : Sink → Option String) : List Event :=
  w.defaultLogger.output Severity.sFatal 0 meta txt ++ w.defaultLogger.Close res
    ++ [Event.exitProc 1]

/-- Package-level `FatalDepth`. -/
def FatalDepth (w : World) (depth : Nat) (meta txt : String)
    (res : Sink → Option String) : List Event :=
  w.defaultLogger.output Severity.sFatal depth meta txt ++ w.defaultLogger.Close res
    ++ [Event.exitProc 1]

/-- Package-level `Fatalln`. -/
def Fatalln (w : World) (meta txt : String) (res : Sink → Option String) : List Event :=
  w.defaultLogger.output Severity.sFatal 0 meta (txt ++ "\n")
    ++ w.defaultLogger.Close res ++ [Event.exitProc 1]

/-- Package-level `Fatalf`. -/
def Fatalf (w : World) (meta txt : String) (res : Sink → Option String) : List Event :=
  w.defaultLogger.output Severity.sFatal 0 meta txt ++ w.defaultLogger.Close res
    ++ [Event.exitProc 1]

/-- `Logger.SetLevel`: set the verbosity level, then announce it with one
info-level record. -/
def Logger.SetLevel (l : Logger) (meta : String) (lvl : Level) :
    Logger × List Event :=
  let l2 : Logger := { l with level := lvl }
  (l2, l2.output Severity.sInfo 0 meta ("Info verbosity set to " ++ toString lvl))

/-- `Logger.Verbosity`: snapshot `l.level >= lvl` into the handle. -/
def Logger.Verbosity (l : Logger) (lvl : Level) : Verbose :=
  ⟨decide (l.level ≥ lvl), l⟩

/-- Package-level `Verbosity` on the default logger. -/
def Verbosity (w : World) (lvl : Level) : Verbose :=
  w.defaultLogger.Verbosity lvl

/-- `Verbose.Info`: logs one info record iff the handle is enabled. -/
def Verbose.Info (v : Verbose) (meta txt : String) : List Event :=
  if v.enabled then v.logger.output Severity.sInfo 0 meta txt else []

/-- `Verbose.Infoln`. -/
def Verbose.Infoln (v : Verbose) (meta txt : String) : List Event :=
  if v.enabled then v.logger.output Severity.sInfo 0 meta (txt ++ "\n") else []

/-- `Verbose.Infof`. -/
def Verbose.Infof (v : Verbose) (meta txt : String) : List Event :=
  if v.enabled then v.logger.output Severity.sInfo 0 meta txt else []

/-- `SetFlags`: set the output flags uniformly on all four default-logger
channels. -/
def SetFlags (w : World) (flag : Nat) : World :=
  let d := w.defaultLogger
  { w with
    defaultLogger :=
      { d with
        infoLog := { d.infoLog with flags := flag }
        warnLog := { d.warnLog with flags := flag }
        errorLog := { d.errorLog with flags := flag }
        fatalLog := { d.fatalLog with flags := flag } } }

/-- The environment in which every `syslog.New` call succeeds. -/
def envNone : Nat → String → Option String := fun _ _ => none

/-- The environment in which every `syslog.New` call fails (e.g. no system
log daemon). -/
def envFail : Nat → String → Option String :=
  fun _ _ => some "Unix syslog delivery error"

/-- A sample logger: file-backed (closable primary), not verbose, no system
log, built in the pristine start state. -/
def sampleLogger : Logger :=
  (Init envNone "sample" false false (Sink.primary 0 true) "" w0).1

/-- `setup` is all-or-nothing: either the three priority-specific writers all
come back with no error, or all three are absent and an error is reported. -/
theorem setup_spec (env : Nat → String → Option String) (src : String) :
    ((setup env src).il = some (Sink.syslogW (LOG_USER ||| LOG_NOTICE) src)
        ∧ (setup env src).wl = some (Sink.syslogW (LOG_USER ||| LOG_WARNING) src)
        ∧ (setup env src).el = some (Sink.syslogW (LOG_USER ||| LOG_ERR) src)
        ∧ (setup env src).err = none)
      ∨ ((setup env src).il = none ∧ (setup env src).wl = none
        ∧ (setup env src).el = none ∧ ∃ e, (setup env src).err = some e) := by
  unfold setup syslogNew
  rcases h1 : env (LOG_USER ||| LOG_NOTICE) src with _ | e1
  · rcases h2 : env (LOG_USER ||| LOG_WARNING) src with _ | e2
    · rcases h3 : env (LOG_USER ||| LOG_ERR) src with _ | e3
      · simp
      · simp
    · simp
  · simp

/-- C2: For every Logger `l` and requested level `T`, `l.Verbosity T` returns
a handle whose enabled flag is true iff `l`'s current level is `≥ T` at the
moment of creation; a later `SetLevel` produces a logger whose new handles
track the new level, while a handle created beforehand keeps the flag
computed from the old level. -/
theorem C2_verbosity_snapshot (l : Logger) (T newLvl : Level) (m : String) :
    ((l.Verbosity T).enabled = true ↔ l.level ≥ T)
      ∧ ((l.SetLevel m newLvl).1.level = newLvl)
      ∧ (((l.SetLevel m newLvl).1.Verbosity T).enabled = true ↔ newLvl ≥ T)
      ∧ (l.Verbosity T).enabled = decide (l.level ≥ T) := by
  refine ⟨?_, rfl, ?_, rfl⟩ <;> simp [Logger.Verbosity, Logger.SetLevel]

/-- C9: For every Verbose handle whose enabled flag is false, `Info`,
`Infoln` and `Infof` produce no events at all; when the flag is true, each
emits exactly the one info-severity record through the bound logger's info
channel. -/
theorem C9_verbose_gating (v : Verbose) (meta txt : String) :
    (v.enabled = false →
        v.Info meta txt = [] ∧ v.Infoln meta txt = [] ∧ v.Infof meta txt = [])
      ∧ (v.enabled = true →
        v.Info meta txt = v.logger.infoLog.emit meta txt
          ∧ v.Infoln meta txt = v.logger.infoLog.emit meta (txt ++ "\n")
          ∧ v.Infof meta txt = v.logger.infoLog.emit meta txt) := by
  constructor <;> intro h <;>
    simp [Verbose.Info, Verbose.Infoln, Verbose.Infof, Logger.output,
      Logger.chanFor, h]

/-- C9 witness: a disabled handle emits nothing; an enabled handle on the
sample logger emits the info-channel record. -/
theorem C9_verbose_gating_witness :
    (Verbose.mk false sampleLogger).Info "m" "x" = []
      ∧ (Verbose.mk true sampleLogger).Info "m" "x"
          = sampleLogger.infoLog.emit "m" "x" :=
  ⟨((C9_verbose_gating ⟨false, sampleLogger⟩ "m" "x").1 rfl).1,
   ((C9_verbose_gating ⟨true, sampleLogger⟩ "m" "x").2 rfl).1⟩

/-- The standard-output stream is not a system-log writer. -/
theorem isSyslog_stdoutS : Sink.stdoutS.isSyslog = false := rfl

/-- The standard-error stream is not a system-log writer. -/
theorem isSyslog_stderrS : Sink.stderrS.isSyslog = false := rfl

/-- A system-log writer is a system-log writer. -/
theorem isSyslog_syslogW (p : Nat) (s : String) :
    (Sink.syslogW p s).isSyslog = true := rfl

/-- C10: the system-log adapter is all-or-nothing: `setup` returns either
three writers with no error or no writer with an error; consequently a logger
built with `systemLog = true` (whose primary destination is not itself a
system-log writer) carries system-log destinations on all three of its info,
warning and error channels, or on none of them. -/
theorem C10_syslog_all_or_nothing (env : Nat → String → Option String)
    (name errMeta : String) (verbose : Bool) (logFd : Sink) (w : World)
    (hfd : logFd.isSyslog = false) :
    (((setup env name).il = some (Sink.syslogW (LOG_USER ||| LOG_NOTICE) name)
        ∧ (setup env name).wl = some (Sink.syslogW (LOG_USER ||| LOG_WARNING) name)
        ∧ (setup env name).el = some (Sink.syslogW (LOG_USER ||| LOG_ERR) name)
        ∧ (setup env name).err = none)
      ∨ ((setup env name).il = none ∧ (setup env name).wl = none
        ∧ (setup env name).el = none ∧ ∃ e, (setup env name).err = some e))
    ∧ (((Init env name verbose true logFd errMeta w).1.infoLog.writers.any
            Sink.isSyslog = true
          ∧ (Init env name verbose true logFd errMeta w).1.warnLog.writers.any
            Sink.isSyslog = true
          ∧ (Init env name verbose true logFd errMeta w).1.errorLog.writers.any
            Sink.isSyslog = true)
      ∨ ((Init env name verbose true logFd errMeta w).1.infoLog.writers.any
            Sink.isSyslog = false
          ∧ (Init env name verbose true logFd errMeta w).1.warnLog.writers.any
            Sink.isSyslog = false
          ∧ (Init env name verbose true logFd errMeta w).1.errorLog.writers.any
            Sink.isSyslog = false)) := by
  refine ⟨setup_spec env name, ?_⟩
  rcases setup_spec env name with ⟨hi, hw2, he, _⟩ | ⟨hi, hw2, he, _⟩
  · left
    cases verbose <;>
      simp [Init, hi, hw2, he, optList, isSyslog_syslogW]
  · right
    cases verbose <;>
      simp [Init, hi, hw2, he, optList, hfd, isSyslog_stdoutS, isSyslog_stderrS]

/-- C10 witness: with a failing adapter environment and a plain file as the
primary destination, no channel of the constructed logger carries a
system-log destination. -/
theorem C10_syslog_all_or_nothing_witness :
    (Init envFail "app" false true (Sink.primary 0 true) "" w0).1.infoLog.writers.any
        Sink.isSyslog = true
      ∨ (Init envFail "app" false true (Sink.primary 0 true) "" w0).1.infoLog.writers.any
        Sink.isSyslog = false := by
  have h := C10_syslog_all_or_nothing envFail "app" "" false
    (Sink.primary 0 true) w0 (by decide)
  rcases h.2 with ⟨h1, _⟩ | ⟨h1, _⟩
  · exact Or.inl h1
  · exact Or.inr h1

/-- C6: every Fatal-severity variant, both as a Logger method and as a
package-level function on the default logger, first writes the fatal record
through the fatal channel, then runs Close over the logger's resources, then
terminates the process with exit status 1 — unconditionally in the
close-result environment `res`, so even when closing reports errors the last
event is the exit with status 1. -/
theorem C6_fatal_then_close_then_exit (l : Logger) (w : World) (depth : Nat)
    (meta txt : String) (res : Sink → Option String) :
    l.Fatal meta txt res
        = l.fatalLog.emit meta txt ++ l.Close res ++ [Event.exitProc 1]
      ∧ l.FatalDepth depth meta txt res
        = l.fatalLog.emit meta txt ++ l.Close res ++ [Event.exitProc 1]
      ∧ l.Fatalln meta txt res
        = l.fatalLog.emit meta (txt ++ "\n") ++ l.Close res ++ [Event.exitProc 1]
      ∧ l.Fatalf meta txt res
        = l.fatalLog.emit meta txt ++ l.Close res ++ [Event.exitProc 1]
      ∧ Fatal w meta txt res
        = w.defaultLogger.fatalLog.emit meta txt ++ w.defaultLogger.Close res
            ++ [Event.exitProc 1]
      ∧ FatalDepth w depth meta txt res
        = w.defaultLogger.fatalLog.emit meta txt ++ w.defaultLogger.Close res
            ++ [Event.exitProc 1]
      ∧ Fatalln w meta txt res
        = w.defaultLogger.fatalLog.emit meta (txt ++ "\n")
            ++ w.defaultLogger.Close res ++ [Event.exitProc 1]
      ∧ Fatalf w meta txt res
        = w.defaultLogger.fatalLog.emit meta txt ++ w.defaultLogger.Close res
            ++ [Event.exitProc 1]
      ∧ (l.Fatal meta txt res).getLast? = some (Event.exitProc 1)
      ∧ (l.FatalDepth depth meta txt res).getLast? = some (Event.exitProc 1)
      ∧ (l.Fatalln meta txt res).getLast? = some (Event.exitProc 1)
      ∧ (l.Fatalf meta txt res).getLast? = some (Event.exitProc 1)
      ∧ (Fatal w meta txt res).getLast? = some (Event.exitProc 1)
      ∧ (FatalDepth w depth meta txt res).getLast? = some (Event.exitProc 1)
      ∧ (Fatalln w meta txt res).getLast? = some (Event.exitProc 1)
      ∧ (Fatalf w meta txt res).getLast? = some (Event.exitProc 1) := by
  refine ⟨rfl, rfl, rfl, rfl, rfl, rfl, rfl, rfl,
    ?_, ?_, ?_, ?_, ?_, ?_, ?_, ?_⟩ <;>
    simp [Logger.Fatal, Logger.FatalDepth, Logger.Fatalln, Logger.Fatalf,
      Fatal, FatalDepth, Fatalln, Fatalf, List.getLast?_concat]

/-- C1: `Init` always returns the newly constructed, fully wired logger (a
fresh identity, initialized, with the primary destination on all four
channels); it installs that logger as the process default exactly when the
default was not yet initialized, and otherwise leaves the default untouched,
the returned logger being distinct from it. -/
theorem C1_default_installed_once (env : Nat → String → Option String)
    (name errMeta : String) (verbose systemLog : Bool) (logFd : Sink) (w : World)
    (hw : w.defaultLogger.uid < w.nextId) :
    (Init env name verbose systemLog logFd errMeta w).1.initialized = true
      ∧ (Init env name verbose systemLog logFd errMeta w).1.uid = w.nextId
      ∧ logFd ∈ (Init env name verbose systemLog logFd errMeta w).1.infoLog.writers
      ∧ logFd ∈ (Init env name verbose systemLog logFd errMeta w).1.warnLog.writers
      ∧ logFd ∈ (Init env name verbose systemLog logFd errMeta w).1.errorLog.writers
      ∧ logFd ∈ (Init env name verbose systemLog logFd errMeta w).1.fatalLog.writers
      ∧ (w.defaultLogger.initialized = true →
          (Init env name verbose systemLog logFd errMeta w).2.1.defaultLogger
              = w.defaultLogger
            ∧ (Init env name verbose systemLog logFd errMeta w).1.uid
              ≠ (Init env name verbose systemLog logFd errMeta w).2.1.defaultLogger.uid)
      ∧ (w.defaultLogger.initialized = false →
          (Init env name verbose systemLog logFd errMeta w).2.1.defaultLogger
            = (Init env name verbose systemLog logFd errMeta w).1)
      ∧ (Init env name verbose systemLog logFd errMeta w).2.1.defaultLogger.uid
          < (Init env name verbose systemLog logFd errMeta w).2.1.nextId := by
  refine ⟨by simp [Init], by simp [Init], by simp [Init], by simp [Init],
    by simp [Init], by simp [Init], ?_, ?_, ?_⟩
  · intro h
    refine ⟨by simp [Init, h], ?_⟩
    simp [Init, h]
    omega
  · intro h
    simp [Init, h]
  · cases hinit : w.defaultLogger.initialized <;> (simp [Init, hinit]; try omega)

/-- C1 witness: in the pristine start state the first `Init` installs its
logger as the default; a second `Init` leaves that default unchanged while
returning a logger with a different identity. -/
theorem C1_default_installed_once_witness :
    (Init envNone "a" false false (Sink.primary 1 false) "" w0).2.1.defaultLogger
        = (Init envNone "a" false false (Sink.primary 1 false) "" w0).1
      ∧ (Init envNone "b" false false (Sink.primary 2 false) ""
            (Init envNone "a" false false (Sink.primary 1 false) "" w0).2.1).2.1.defaultLogger
          = (Init envNone "a" false false (Sink.primary 1 false) "" w0).1
      ∧ (Init envNone "b" false false (Sink.primary 2 false) ""
            (Init envNone "a" false false (Sink.primary 1 false) "" w0).2.1).1.uid
          ≠ (Init envNone "b" false false (Sink.primary 2 false) ""
            (Init envNone "a" false false (Sink.primary 1 false) "" w0).2.1).2.1.defaultLogger.uid := by
  have h1 := C1_default_installed_once envNone "a" "" false false
    (Sink.primary 1 false) w0 (by decide)
  have h2 := C1_default_installed_once envNone "b" "" false false
    (Sink.primary 2 false)
    (Init envNone "a" false false (Sink.primary 1 false) "" w0).2.1 (by decide)
  refine ⟨h1.2.2.2.2.2.2.2.1 rfl, ?_, ?_⟩
  · have hd := h2.2.2.2.2.2.2.1 (by decide)
    rw [hd.1]
    exact (by decide : (Init envNone "a" false false (Sink.primary 1 false) "" w0).2.1.defaultLogger
      = (Init envNone "a" false false (Sink.primary 1 false) "" w0).1)
  · exact (h2.2.2.2.2.2.2.1 (by decide)).2

/-- C5: with `verbose = false` no info or warning record is ever written to
standard output (writer lists and event traces alike, provided the primary
destination is not itself standard output); with `verbose = true` every info
and warning record is written to standard output in addition to the primary
destination. -/
theorem C5_verbose_stdout (env : Nat → String → Option String)
    (name errMeta meta txt : String) (systemLog : Bool) (logFd : Sink)
    (w : World) (hfd : logFd ≠ Sink.stdoutS) :
    Sink.stdoutS ∉ (Init env name false systemLog logFd errMeta w).1.infoLog.writers
      ∧ Sink.stdoutS ∉ (Init env name false systemLog logFd errMeta w).1.warnLog.writers
      ∧ (∀ t, Event.write Sink.stdoutS t
          ∉ (Init env name false systemLog logFd errMeta w).1.Info meta txt)
      ∧ (∀ t, Event.write Sink.stdoutS t
          ∉ (Init env name false systemLog logFd errMeta w).1.Warning meta txt)
      ∧ Event.write Sink.stdoutS (formatRecord labelInfo meta txt)
          ∈ (Init env name true systemLog logFd errMeta w).1.Info meta txt
      ∧ Event.write logFd (formatRecord labelInfo meta txt)
          ∈ (Init env name true systemLog logFd errMeta w).1.Info meta txt
      ∧ Event.write Sink.stdoutS (formatRecord labelWarn meta txt)
          ∈ (Init env name true systemLog logFd errMeta w).1.Warning meta txt
      ∧ Event.write logFd (formatRecord labelWarn meta txt)
          ∈ (Init env name true systemLog logFd errMeta w).1.Warning meta txt := by
  have hsetup := setup_spec env name
  cases hs : systemLog
  · refine ⟨?_, ?_, ?_, ?_, ?_, ?_, ?_, ?_⟩ <;>
      simp [Init, optList, Logger.Info, Logger.Warning, Logger.output,
        Logger.chanFor, Chan.emit, formatRecord, hfd, hfd.symm]
  · rcases hsetup with ⟨hi, hw2, he, _⟩ | ⟨hi, hw2, he, _⟩ <;>
      refine ⟨?_, ?_, ?_, ?_, ?_, ?_, ?_, ?_⟩ <;>
        simp [Init, hi, hw2, he, optList, Logger.Info, Logger.Warning,
          Logger.output, Logger.chanFor, Chan.emit, formatRecord, hfd, hfd.symm]

/-- C5 witness: on a file-backed logger, verbose=false keeps standard output
out of the info writer list, and verbose=true puts the info record on
standard output. -/
theorem C5_verbose_stdout_witness :
    Sink.stdoutS ∉ (Init envNone "app" false false (Sink.primary 0 true) "" w0).1.infoLog.writers
      ∧ Event.write Sink.stdoutS (formatRecord labelInfo "M" "hi")
          ∈ (Init envNone "app" true false (Sink.primary 0 true) "" w0).1.Info "M" "hi" := by
  have h := C5_verbose_stdout envNone "app" "" "M" "hi" false
    (Sink.primary 0 true) w0 (by decide)
  exact ⟨h.1, h.2.2.2.2.1⟩

/-- C7: every record a constructed logger emits goes out, on each destination
of its severity's channel, as the severity label followed by the header and
message, the label drawn from the four fixed labels; a record emitted through
the pre-Init default logger goes only to standard error and carries, ahead of
the severity label, the marker line "Logging before logger initiated!". -/
theorem C7_record_line_format (env : Nat → String → Option String)
    (name errMeta meta txt : String) (verbose systemLog : Bool) (logFd : Sink)
    (w : World) (s : Severity) (depth u : Nat) :
    (Init env name verbose systemLog logFd errMeta w).1.output s depth meta txt
        = ((Init env name verbose systemLog logFd errMeta w).1.chanFor s).writers.map
            (fun d => Event.write d
              (severityLabel s
                ++ (meta ++ (txt ++ (if txt.endsWith "\n" then "" else "\n")))))
      ∧ (severityLabel s = labelInfo ∨ severityLabel s = labelWarn
          ∨ severityLabel s = labelErr ∨ severityLabel s = labelFatal)
      ∧ (init_logger u).output s depth meta txt
          = [Event.write Sink.stderrS
              (initText
                ++ (severityLabel s
                  ++ (meta ++ (txt ++ (if txt.endsWith "\n" then "" else "\n")))))]
      ∧ initText = "[ERROR]: " ++ ("Logging before logger initiated!" ++ "\n")
      ∧ w0.defaultLogger = init_logger 0 := by
  refine ⟨?_, ?_, ?_, by decide, rfl⟩
  · cases s <;>
      simp [Init, Logger.output, Logger.chanFor, Chan.emit, formatRecord,
        severityLabel, String.append_assoc]
  · cases s <;> simp [severityLabel]
  · cases s <;>
      simp [init_logger, Logger.output, Logger.chanFor, Chan.emit,
        formatRecord, severityLabel, String.append_assoc]

/-- C8: when the system-log adapter fails during `Init`, construction still
succeeds (the returned logger is initialized — `Init` has no error return),
and the only side effect emitted before `Init` returns is exactly one
error-severity record, carrying the failure, through the new logger's own
error channel. -/
theorem C8_syslog_failure_reported (env : Nat → String → Option String)
    (name errMeta : String) (verbose : Bool) (logFd : Sink) (w : World)
    (e : String) (h : (setup env name).err = some e) :
    (Init env name verbose true logFd errMeta w).1.initialized = true
      ∧ (Init env name verbose true logFd errMeta w).2.2
          = (Init env name verbose true logFd errMeta w).1.errorLog.emit errMeta e
      ∧ (Init env name verbose true logFd errMeta w).2.2
          = (Init env name verbose true logFd errMeta w).1.output
              Severity.sError 0 errMeta e := by
  refine ⟨by simp [Init], ?_, ?_⟩ <;>
    simp [Init, h, Logger.output, Logger.chanFor]

/-- C8 witness: with every `syslog.New` call failing, `Init` still yields an
initialized logger and reports the failure as one record on its own error
channel. -/
theorem C8_syslog_failure_reported_witness :
    (Init envFail "app" false true (Sink.primary 0 true) "M" w0).1.initialized = true
      ∧ (Init envFail "app" false true (Sink.primary 0 true) "M" w0).2.2
          = (Init envFail "app" false true (Sink.primary 0 true) "M" w0).1.errorLog.emit
              "M" "Unix syslog delivery error" := by
  have h := C8_syslog_failure_reported envFail "app" "M" false
    (Sink.primary 0 true) w0 "Unix syslog delivery error" (by decide)
  exact ⟨h.1, h.2.1⟩

/-- C3 counterexample: on a file-backed logger a first Close that succeeds
performs no writes, but a second Close re-runs the close loop (the
initialized flag is never cleared), and when re-closing the already-closed
file reports an error, the second Close writes a diagnostic to standard
error — contradicting "a second Close performs no writes". -/
theorem C3_second_close_counterexample :
    sampleLogger.initialized = true
      ∧ sampleLogger.Close (fun _ => none) = []
      ∧ sampleLogger.Close (fun _ => some "file already closed")
          = [Event.write Sink.stderrS
              (closeDiag (Sink.primary 0 true) "file already closed")]
      ∧ sampleLogger.Close (fun _ => some "file already closed") ≠ [] := by
  refine ⟨rfl, rfl, rfl, by decide⟩

/-- C3 (amended): Close on a logger whose initialized flag is false performs
no work and reports no error; a repeated Close on an initialized logger
re-attempts closing every resource — it performs no writes precisely when
every close attempt succeeds (in particular when there are no closers), and
it never reports an error to its caller (one stderr diagnostic per failing
resource is its only output). -/
theorem C3_close_noop_amended (l : Logger) (res : Sink → Option String) :
    (l.initialized = false → l.Close res = [])
      ∧ (l.Close res = []
          ↔ l.initialized = false ∨ ∀ c ∈ l.closers, res c = none) := by
  constructor
  · intro h
    simp [Logger.Close, h]
  · cases h : l.initialized
    · simp [Logger.Close, h]
    · simp only [Logger.Close, h, Bool.not_true, Bool.false_eq_true, if_false]
      rw [List.filterMap_eq_nil_iff]
      constructor
      · intro hall
        refine Or.inr ?_
        intro c hc
        have h2 := hall c hc
        cases hr : res c
        · rfl
        · rw [hr] at h2
          simp at h2
      · intro hall c hc
        rcases hall with hfalse | hall
        · simp at hfalse
        · rw [hall c hc]

/-- C3 witness: Close on the still-uninitialized pre-Init logger emits
nothing, whatever the close-result environment. -/
theorem C3_close_noop_amended_witness :
    (init_logger 5).Close (fun _ => some "err") = [] :=
  (C3_close_noop_amended (init_logger 5) (fun _ => some "err")).1 rfl

/-- C4 counterexample: a freshly constructed logger has Level 0, but a
Verbosity handle requested at level 0 is enabled (0 ≥ 0) and its Info call
does emit a record — contradicting "emits no records at any requested
level". -/
theorem C4_level_zero_counterexample :
    sampleLogger.level = 0
      ∧ (sampleLogger.Verbosity 0).enabled = true
      ∧ (sampleLogger.Verbosity 0).Info "M" "x"
          = sampleLogger.infoLog.emit "M" "x"
      ∧ (sampleLogger.Verbosity 0).Info "M" "x" ≠ [] := by
  refine ⟨rfl, by decide, rfl, by decide⟩

/-- C4 (amended): a Logger's Level defaults to zero, and at that default a
Verbosity handle at any positive requested level is disabled and emits no
records through Info, Infoln or Infof; a handle at requested level ≤ 0
(in particular 0) is enabled. -/
theorem C4_default_level_zero (env : Nat → String → Option String)
    (name errMeta meta txt : String) (verbose systemLog : Bool) (logFd : Sink)
    (w : World) (T : Level) (hT : 1 ≤ T) :
    (Init env name verbose systemLog logFd errMeta w).1.level = 0
      ∧ ((Init env name verbose systemLog logFd errMeta w).1.Verbosity T).enabled
          = false
      ∧ ((Init env name verbose systemLog logFd errMeta w).1.Verbosity T).Info
          meta txt = []
      ∧ ((Init env name verbose systemLog logFd errMeta w).1.Verbosity T).Infoln
          meta txt = []
      ∧ ((Init env name verbose systemLog logFd errMeta w).1.Verbosity T).Infof
          meta txt = []
      ∧ ((Init env name verbose systemLog logFd errMeta w).1.Verbosity 0).enabled
          = true := by
  have hlvl : (Init env name verbose systemLog logFd errMeta w).1.level = 0 := by
    simp [Init]
  have hnot : ¬ T ≤ (0 : Level) := fun h => absurd (le_trans hT h) (by norm_num)
  have hen :
      ((Init env name verbose systemLog logFd errMeta w).1.Verbosity T).enabled
        = false := by
    simp [Logger.Verbosity, hlvl, ge_iff_le, decide_eq_false_iff_not, hnot]
  refine ⟨hlvl, hen, ?_, ?_, ?_, ?_⟩
  · simp [Verbose.Info, hen]
  · simp [Verbose.Infoln, hen]
  · simp [Verbose.Infof, hen]
  · simp [Logger.Verbosity, hlvl]

/-- C4 witness: at requested level 1, a fresh logger's Verbosity handle emits
nothing. -/
theorem C4_default_level_zero_witness :
    ((Init envNone "app" false false (Sink.primary 0 true) "" w0).1.Verbosity 1).Info
      "M" "x" = [] :=
  (C4_default_level_zero envNone "app" "" "M" "x" false false
    (Sink.primary 0 true) w0 1 (by decide)).2.2.1

end Gologger
